import Mathlib

/-!
Verification development for the GenAI-Video generation pipeline.

We give a shallow embedding of the media-assembly and provider-fallback
code (services/animation/animationService.js and
services/animation/klingAIService.js) and prove properties of it.
Durations are modelled as rationals (the source computes with JS numbers;
all relevant constants are exact decimals), JS `NaN` is modelled
explicitly, and the external world (file existence checks, ffprobe,
ffmpeg exit statuses, provider HTTP calls) is supplied through oracle
environments while every branch, counter, message and ordering decision
is translated from the source.
-/

namespace GenAIVideo

/-- A JS number as used for the probed duration: either `NaN` (e.g. when
`parseFloat` fails on the ffprobe output) or an actual rational value. -/
inductive JsNum where
  | nan
  | num (val : ℚ)
deriving DecidableEq, Repr

/-- The `formatTime` closure inside `trimAndMux`: it clamps `NaN` or
negative inputs (in seconds) to `0`, then renders
`Math.round(totalSeconds * 1000)` milliseconds as an SRT timestamp.
We return the rendered millisecond count, which determines the timestamp
string injectively. -/
def formatTimeMs : JsNum → ℤ
  | .nan => 0
  | .num q => if q < 0 then 0 else round (q * 1000)

/-- Direction of an ffmpeg fade filter (`fade=t=in` / `fade=t=out`,
`afade=t=in` / `afade=t=out`). -/
inductive FadeKind where
  | fadeIn
  | fadeOut
deriving DecidableEq, Repr

/-- One fade filter: direction, start time `st` and duration `d`
(both in seconds). -/
structure Fade where
  kind : FadeKind
  start : ℚ
  dur : ℚ
deriving DecidableEq, Repr

/-- Step 6 of `trimAndMux`: the video fade filters and the audio fade
filters computed from the clip index `idx` and the total clip count
`totalClips`.  The source tests `idx === 0` and `idx === totalClips - 1`
(over JS numbers); for natural `idx` the latter is equivalent to
`idx + 1 = totalClips`, which is what we write. -/
def computeFades (dur fadeTime : ℚ) (idx totalClips : ℕ) :
    List Fade × List Fade :=
  if idx = 0 ∧ idx + 1 = totalClips then
    ([⟨.fadeIn, 0, fadeTime⟩, ⟨.fadeOut, dur - fadeTime, fadeTime⟩],
     [⟨.fadeIn, 0, fadeTime⟩, ⟨.fadeOut, dur - fadeTime, fadeTime⟩])
  else if idx = 0 then
    ([⟨.fadeIn, 0, fadeTime⟩], [⟨.fadeIn, 0, fadeTime⟩])
  else if idx + 1 = totalClips then
    ([⟨.fadeOut, dur - fadeTime, fadeTime⟩],
     [⟨.fadeOut, dur - fadeTime, fadeTime⟩])
  else
    ([], [])

/-- The inputs of one `trimAndMux` call, with the external world's answers
(existence checks, the parsed ffprobe output, the ffmpeg exit status)
supplied as data. -/
structure TrimInput where
  videoExists : Bool
  audioExists : Bool
  probeResult : JsNum
  subtitleText : String
  idx : ℕ
  totalClips : ℕ
  fadeTime : ℚ
  ffmpegExitStatus : ℤ
deriving DecidableEq, Repr

/-- Everything `trimAndMux` computes for one clip: the authoritative
audio duration, the single SRT cue (start, the exact value handed to
`formatTime` for the cue end, the rendered end milliseconds, the text),
the video and audio fade filters, and the `-t` trim duration passed to
ffmpeg. -/
structure ClipPlan where
  dur : ℚ
  srtCueStartMs : ℤ
  srtCueEndInput : ℚ
  srtCueEndMs : ℤ
  srtText : String
  videoFades : List Fade
  audioFades : List Fade
  trimDuration : ℚ
deriving DecidableEq, Repr

/-- The clip plan built by the success path of `trimAndMux`: the SRT cue
is `00:00:00,000 --> formatTime(dur + 0.35)` with the narration text
verbatim, fades come from `computeFades`, and the ffmpeg arguments trim
with `-ss 0 -t (dur + 0.3)`. -/
def buildPlan (dur fadeTime : ℚ) (subtitleText : String)
    (idx totalClips : ℕ) : ClipPlan :=
  { dur := dur
    srtCueStartMs := 0
    srtCueEndInput := dur + 35/100
    srtCueEndMs := formatTimeMs (.num (dur + 35/100))
    srtText := subtitleText
    videoFades := (computeFades dur fadeTime idx totalClips).1
    audioFades := (computeFades dur fadeTime idx totalClips).2
    trimDuration := dur + 3/10 }

/-- `trimAndMux`: checks both inputs exist, probes the audio duration and
throws when `parseFloat` gave `NaN` (this is the only numeric guard —
there is no sign check), writes the subtitle cue, computes the fades,
runs ffmpeg and fails on a non-zero exit.  Returns the data of the
processed clip. -/
def trimAndMux (inp : TrimInput) : Except String ClipPlan :=
  if inp.videoExists = false then .error ("ENOENT: video input missing")
  else if inp.audioExists = false then .error ("ENOENT: audio input missing")
  else
    match inp.probeResult with
    | .nan => .error ("Failed to parse duration")
    | .num dur =>
        if inp.ffmpegExitStatus = 0 then
          .ok (buildPlan dur inp.fadeTime inp.subtitleText inp.idx inp.totalClips)
        else
          .error ("ffmpeg failed")

/-- Model of ffmpeg reading a source of length `sourceLen` under
`-ss 0 -t t`: reading is capped at `t`, so the produced clip never
exceeds the source (trimming, never stretching). -/
def trimmedOutputLen (sourceLen t : ℚ) : ℚ := min sourceLen t

instance instDecEqExcept {ε α : Type} [DecidableEq ε] [DecidableEq α] :
    DecidableEq (Except ε α) := fun x y =>
  match x, y with
  | .ok a, .ok b =>
      if h : a = b then .isTrue (by rw [h]) else .isFalse (by simp [h])
  | .error a, .error b =>
      if h : a = b then .isTrue (by rw [h]) else .isFalse (by simp [h])
  | .ok _, .error _ => .isFalse (by simp)
  | .error _, .ok _ => .isFalse (by simp)

/-- A concrete single-clip call of `trimAndMux` (scene index 0 of 1,
probed duration 4s). -/
def trimInputOnly : TrimInput :=
  { videoExists := true
    audioExists := true
    probeResult := .num 4
    subtitleText := "narration"
    idx := 0
    totalClips := 1
    fadeTime := 1/2
    ffmpegExitStatus := 0 }

/-- A `trimAndMux` call whose probe yields a negative duration (both
inputs exist, ffmpeg exits 0). -/
def trimInputNegativeDur : TrimInput :=
  { videoExists := true
    audioExists := true
    probeResult := .num (-2)
    subtitleText := "narration"
    idx := 1
    totalClips := 3
    fadeTime := 1/2
    ffmpegExitStatus := 0 }

/-- One entry of `sceneVideos` as consumed by `assembleAnimation`. -/
structure SceneVideo where
  sceneNumber : ℕ
  videoPath : String
  narration : String
deriving DecidableEq, Repr

/-- One entry of `audioAssets.narration` (pushed by
`generateAudioAssets`); `audioPath` is `none` for a JS `null`. -/
structure NarrationAsset where
  sceneNumber : ℕ
  audioPath : Option String
deriving DecidableEq, Repr

/-- One scene as far as audio generation is concerned. -/
structure Scene where
  sceneNumber : ℕ
  narration : String
deriving DecidableEq, Repr

/-- A JS-whitespace character as removed by `String.prototype.trim`. -/
def isWhitespaceChar (c : Char) : Bool :=
  c == ' ' || c == '\t' || c == '\n' || c == '\r'

/-- The JS truthiness test `!(s && s.trim())`: the string is empty or
consists of whitespace only. -/
def trimmedEmpty (s : String) : Bool :=
  s.data.all isWhitespaceChar

/-- The JS `s.startsWith(pre)` test. -/
def strStartsWith (s pre : String) : Bool :=
  pre.data.isPrefixOf s.data

/-- `generateVoice`: returns `null` (modelled as `none`) when the
ElevenLabs API key is absent or the synthesis request fails — both are
caught and logged, never thrown — and otherwise the path of the written
narration file. -/
def generateVoice (elevenLabsKeyPresent : Bool)
    (synthesisSucceeds : ℕ → Bool) (sceneNumber : ℕ) : Option String :=
  if elevenLabsKeyPresent = false then none
  else if synthesisSucceeds sceneNumber then
    some ("audio/narration_" ++ toString sceneNumber ++ ".mp3")
  else none

/-- `generateAudioAssets`: iterates the scenes in order and pushes a
narration entry only when the scene has non-blank narration text and
`generateVoice` returned a path. -/
def generateAudioAssets (elevenLabsKeyPresent : Bool)
    (synthesisSucceeds : ℕ → Bool) : List Scene → List NarrationAsset
  | [] => []
  | s :: rest =>
      if trimmedEmpty s.narration then
        generateAudioAssets elevenLabsKeyPresent synthesisSucceeds rest
      else
        match generateVoice elevenLabsKeyPresent synthesisSucceeds s.sceneNumber with
        | some p =>
            ⟨s.sceneNumber, some p⟩ ::
              generateAudioAssets elevenLabsKeyPresent synthesisSucceeds rest
        | none => generateAudioAssets elevenLabsKeyPresent synthesisSucceeds rest

/-- A processed clip as collected by `assembleAnimation`: scene number,
output path and the data `trimAndMux` computed for it. -/
structure ProcessedClip where
  sceneNumber : ℕ
  path : String
  plan : ClipPlan
deriving DecidableEq, Repr

/-- External-world answers consumed by one `assembleAnimation` run. -/
structure AssembleEnv where
  videoExists : String → Bool
  audioExists : String → Bool
  probe : String → JsNum
  sceneFfmpegExit : ℕ → ℤ
  concatExit : ℤ
  unlinkConcatOk : Bool

/-- The output path `processed/processed_scene_<n>.mp4` of one clip. -/
def processedClipPath (sceneNumber : ℕ) : String :=
  "processed/processed_scene_" ++ toString sceneNumber ++ ".mp4"

/-- The `audioAssets.narration.find(...)` lookup in `assembleAnimation`. -/
def narrationFor (narration : List NarrationAsset) (sceneNumber : ℕ) :
    Option NarrationAsset :=
  narration.find? (fun n => n.sceneNumber == sceneNumber)

/-- The skip condition `!sceneAudio || !sceneAudio.audioPath` (a JS
falsy audio path is `null` or the empty string). -/
def skipsScene (narration : List NarrationAsset) (sceneNumber : ℕ) : Bool :=
  match narrationFor narration sceneNumber with
  | none => true
  | some na =>
      match na.audioPath with
      | none => true
      | some p => p == ""

/-- The `trimAndMux` call arguments for scene `sv` at loop index `i` of
`totalClips`, with audio path `ap` (the call site passes
`fadeTime: 0.5`). -/
def sceneTrimInput (env : AssembleEnv) (totalClips i : ℕ)
    (sv : SceneVideo) (ap : String) : TrimInput :=
  { videoExists := env.videoExists sv.videoPath
    audioExists := env.audioExists ap
    probeResult := env.probe ap
    subtitleText := sv.narration
    idx := i
    totalClips := totalClips
    fadeTime := 1/2
    ffmpegExitStatus := env.sceneFfmpegExit sv.sceneNumber }

/-- The per-scene processing loop of `assembleAnimation`: scene `i` of
`totalClips`; a scene without usable narration audio is skipped with a
warning, all other failures (a `trimAndMux` throw) abort the whole
assembly. -/
def processScenesGo (env : AssembleEnv) (totalClips : ℕ)
    (narration : List NarrationAsset) :
    ℕ → List SceneVideo → Except String (List ProcessedClip)
  | _, [] => .ok []
  | i, sv :: rest =>
      match narrationFor narration sv.sceneNumber with
      | none => processScenesGo env totalClips narration (i + 1) rest
      | some na =>
          match na.audioPath with
          | none => processScenesGo env totalClips narration (i + 1) rest
          | some ap =>
              if ap = "" then processScenesGo env totalClips narration (i + 1) rest
              else
                match trimAndMux (sceneTrimInput env totalClips i sv ap) with
                | .error e => .error e
                | .ok plan =>
                    match processScenesGo env totalClips narration (i + 1) rest with
                    | .error e => .error e
                    | .ok clips =>
                        .ok (⟨sv.sceneNumber, processedClipPath sv.sceneNumber, plan⟩ :: clips)

/-- The relation `a.sceneNumber - b.sceneNumber` sorts by: ascending
scene number. -/
def bySceneNumber (a b : ProcessedClip) : Prop := a.sceneNumber ≤ b.sceneNumber

instance : DecidableRel bySceneNumber := fun a b =>
  inferInstanceAs (Decidable (a.sceneNumber ≤ b.sceneNumber))

instance : IsTotal ProcessedClip bySceneNumber :=
  ⟨fun a b => Nat.le_total a.sceneNumber b.sceneNumber⟩

instance : IsTrans ProcessedClip bySceneNumber :=
  ⟨fun _ _ _ h h2 => Nat.le_trans h h2⟩

/-- The `processedClips.sort((a, b) => a.sceneNumber - b.sceneNumber)`
step, modelled by a stable sort with the same ordering. -/
def sortClips (l : List ProcessedClip) : List ProcessedClip :=
  List.insertionSort bySceneNumber l

/-- The output of one successful `assembleAnimation` run: the sorted
clips, the concat manifest (one clip path per line, in manifest order),
the ffmpeg concatenation arguments, whether the manifest file was deleted
afterwards, and the returned output path. -/
structure AssembleOutput where
  clips : List ProcessedClip
  manifest : List String
  concatArgs : List String
  manifestDeleted : Bool
  outputPath : String
deriving DecidableEq, Repr

/-- The final output path inside the working directory (the
`animation_<uuid>.mp4` name is abstracted to a fixed one). -/
def animOutputPath : String := "temp/animation_final.mp4"

/-- The concat manifest path `concat_list.txt` in the working dir. -/
def concatListPath : String := "temp/concat_list.txt"

/-- `assembleAnimation`: processes each scene (skipping scenes without
narration audio), fails when zero clips were processed, sorts the
processed clips by scene number, writes the manifest, concatenates with
stream copy and the faststart flag, deletes the manifest after a
successful concatenation (a deletion failure is only warned about) and
returns the output path.  Errors thrown inside the `try` are wrapped as
`Failed to assemble animation: ...`; a concat failure is a promise
rejection that is not wrapped. -/
def assembleAnimation (env : AssembleEnv) (sceneVideos : List SceneVideo)
    (narration : List NarrationAsset) : Except String AssembleOutput :=
  match processScenesGo env sceneVideos.length narration 0 sceneVideos with
  | .error e => .error ("Failed to assemble animation: " ++ e)
  | .ok processedClips =>
      if processedClips.length = 0 then
        .error ("Failed to assemble animation: " ++ "No clips were successfully processed")
      else
        if env.concatExit = 0 then
          .ok { clips := sortClips processedClips
                manifest := (sortClips processedClips).map (fun c => c.path)
                concatArgs := ["-f", "concat", "-safe", "0", "-i", concatListPath,
                  "-c", "copy", "-movflags", "+faststart", animOutputPath]
                manifestDeleted := env.unlinkConcatOk
                outputPath := animOutputPath }
        else
          .error ("Final concatenation failed with status " ++ toString env.concatExit)

/-- Scenes of the three-scene missing-audio scenario. -/
def scenesC8 : List Scene :=
  [⟨1, "scene one text"⟩, ⟨2, "scene two text"⟩, ⟨3, "scene three text"⟩]

/-- The corresponding scene videos. -/
def svsC8 : List SceneVideo :=
  [⟨1, "videos/scene_1.mp4", "scene one text"⟩,
   ⟨2, "videos/scene_2.mp4", "scene two text"⟩,
   ⟨3, "videos/scene_3.mp4", "scene three text"⟩]

/-- Speech synthesis soft-fails exactly for scene 2. -/
def synthC8 : ℕ → Bool := fun n => n != 2

/-- The narration assets produced for the scenario. -/
def narC8 : List NarrationAsset := generateAudioAssets true synthC8 scenesC8

/-- A fully healthy external world for the scenario (every probe yields
4.2s, every ffmpeg call exits 0). -/
def envC8 : AssembleEnv :=
  { videoExists := fun _ => true
    audioExists := fun _ => true
    probe := fun _ => .num (21/5)
    sceneFfmpegExit := fun _ => 0
    concatExit := 0
    unlinkConcatOk := true }

/-- The assembly output of the missing-audio scenario, extracted from the
run itself. -/
def outC8 : AssembleOutput :=
  (assembleAnimation envC8 svsC8 narC8).toOption.getD
    { clips := [], manifest := [], concatArgs := [], manifestDeleted := false,
      outputPath := "" }

/-- Speech synthesis soft-fails exactly for scene 1 (the first input
scene). -/
def synthC10 : ℕ → Bool := fun n => n != 1

/-- The narration assets when the first scene's audio is missing. -/
def narC10 : List NarrationAsset := generateAudioAssets true synthC10 scenesC8

/-- The assembly output when the first scene's audio is missing. -/
def outC10 : AssembleOutput :=
  (assembleAnimation envC8 svsC8 narC10).toOption.getD
    { clips := [], manifest := [], concatArgs := [], manifestDeleted := false,
      outputPath := "" }

/-- The first input scene video of the scenario. -/
def svHeadC10 : SceneVideo := ⟨1, "videos/scene_1.mp4", "scene one text"⟩

/-- A filesystem operation attempted by the orchestrator (the per-op
success is supplied by the environment; a failed operation has no
effect). -/
inductive FsOp where
  | mkdirRecursive (dir : String)
  | copyFile (src dst : String)
  | unlink (p : String)
  | rmRecursive (dir : String)
deriving DecidableEq, Repr

/-- Whether an operation removes something. -/
def FsOp.isRemoval : FsOp → Bool
  | .unlink _ => true
  | .rmRecursive _ => true
  | _ => false

/-- The job's transient working directory (`this.workingDir`). -/
def workingDir : String := "src/temp"

/-- The durable output directory `public/animations` under the process
cwd. -/
def durableOutputDir : String := "public/animations"

/-- The durable deliverable path (`animation_<ts>_<uuid>.mp4` name
abstracted to a fixed one). -/
def permanentVideoPath : String := "public/animations/animation_final.mp4"

/-- External-world answers consumed by one `generateAnimation` run:
the outcome of phases 1–6 (on success the transient final video path),
and whether each later step succeeds. -/
structure OrchEnv where
  pipeline : Except String String
  copyOk : Bool
  dbOk : Bool
  workingDirExists : Bool
  rmOk : Bool

/-- Abstracted message of a failed `fs.copyFile` to the permanent
location. -/
def copyFailMsg : String := "copy to permanent storage failed"

/-- Message thrown by `saveAnimationToDatabase` on failure. -/
def dbFailMsg : String := "Failed to save animation to database"

/-- `cleanupTempFiles`: if the working directory exists, remove it
recursively in one `fs.rm` call and recreate the base structure; every
error is caught and logged, never rethrown.  We return the list of
attempted filesystem operations (when the recursive removal fails the
recreation is not reached). -/
def cleanupTempFiles (env : OrchEnv) : List FsOp :=
  if env.workingDirExists then
    if env.rmOk then [.rmRecursive workingDir, .mkdirRecursive workingDir]
    else [.rmRecursive workingDir]
  else []

/-- Result and attempted filesystem operations of one orchestrator
run. -/
structure OrchRun where
  result : Except String String
  ops : List FsOp
deriving DecidableEq, Repr

/-- The catch-block cleanup of `generateAnimation`: when a transient
deliverable exists it is unlinked (best effort) unless it already lies
inside the durable output directory. -/
def failCleanupOps (finalVideoPath : String) : List FsOp :=
  if strStartsWith finalVideoPath durableOutputDir then [] else [.unlink finalVideoPath]

/-- `generateAnimation` as in services/animation/animationService.js (the
variant the controller requires): phases 1–6, then mkdir of the durable
directory and copy of the deliverable there, then the database save, then
return — with no cleanup of the working area on success.  On any error
the transient deliverable, if it exists, is removed only when outside the
durable directory, and the error is rethrown wrapped. -/
def generateAnimationRun (env : OrchEnv) : OrchRun :=
  match env.pipeline with
  | .error e => { result := .error ("Animation generation failed: " ++ e), ops := [] }
  | .ok finalVideoPath =>
      if env.copyOk = false then
        { result := .error ("Animation generation failed: " ++ copyFailMsg)
          ops := [.mkdirRecursive durableOutputDir,
                  .copyFile finalVideoPath permanentVideoPath] ++
                 failCleanupOps finalVideoPath }
      else if env.dbOk = false then
        { result := .error ("Animation generation failed: " ++ dbFailMsg)
          ops := [.mkdirRecursive durableOutputDir,
                  .copyFile finalVideoPath permanentVideoPath] ++
                 failCleanupOps finalVideoPath }
      else
        { result := .ok permanentVideoPath
          ops := [.mkdirRecursive durableOutputDir,
                  .copyFile finalVideoPath permanentVideoPath] }

/-- `generateAnimation` of the mood variant (src/unnamed/part_001): same
as the base variant, but after the durable copy and the database save it
additionally awaits `cleanupTempFiles` before returning. -/
def generateAnimationMoodRun (env : OrchEnv) : OrchRun :=
  match env.pipeline with
  | .error e =>
      { result := .error ("Mood-enhanced animation generation failed: " ++ e), ops := [] }
  | .ok finalVideoPath =>
      if env.copyOk = false then
        { result := .error ("Mood-enhanced animation generation failed: " ++ copyFailMsg)
          ops := [.mkdirRecursive durableOutputDir,
                  .copyFile finalVideoPath permanentVideoPath] ++
                 failCleanupOps finalVideoPath }
      else if env.dbOk = false then
        { result := .error ("Mood-enhanced animation generation failed: " ++ dbFailMsg)
          ops := [.mkdirRecursive durableOutputDir,
                  .copyFile finalVideoPath permanentVideoPath] ++
                 failCleanupOps finalVideoPath }
      else
        { result := .ok permanentVideoPath
          ops := [.mkdirRecursive durableOutputDir,
                  .copyFile finalVideoPath permanentVideoPath] ++
                 cleanupTempFiles env }

/-- A fully successful orchestrator environment whose pipeline produced a
transient deliverable inside the working directory. -/
def orchEnvAllOk : OrchEnv :=
  { pipeline := .ok "src/temp/animation_final.mp4"
    copyOk := true
    dbOk := true
    workingDirExists := true
    rmOk := true }

end GenAIVideo

namespace GenAIVideo

/- ===== klingAIService.js: polling and provider fallback ===== -/

/-- Status of a Kling task as reported by `GET /videos/generations/:id`
(the source matches the literal strings `submitted`, `processing`,
`succeed`, `failed`, and warns on anything else). -/
inductive TaskStatus where
  | submitted
  | processing
  | succeed (url : String)
  | failed (reason : Option String)
  | other (s : String)
deriving DecidableEq, Repr

/-- What one polling iteration observes: either the authenticated request
resolves (`code`, task status) or it throws with a message. -/
inductive PollStep where
  | response (code : ℤ) (status : TaskStatus)
  | requestError (msg : String)
deriving DecidableEq, Repr

/-- Poll settings from `this.defaultSettings`. -/
structure PollConfig where
  pollInterval : ℚ
  maxPollAttempts : ℕ
deriving DecidableEq, Repr

/-- `pollInterval: 10000` ms, `maxPollAttempts: 60`. -/
def defaultPollConfig : PollConfig := ⟨10000, 60⟩

/-- Outcome of a whole `pollVideoGeneration` call, plus the number of
status requests issued and the sleeps performed (in ms). -/
structure PollRun where
  outcome : Except String String
  requests : ℕ
  delays : List ℚ
deriving DecidableEq, Repr

/-- `task.task_result?.fail_reason || 'Unknown error'` (a JS falsy
reason — absent or empty — becomes the default). -/
def failReasonText : Option String → String
  | none => "Unknown error"
  | some r => if r = "" then "Unknown error" else r

/-- The catch-block backoff of `pollVideoGeneration`:
`Math.min(pollInterval * 1.5 ** attempts, 30000)` where `attempts` is the
already-incremented counter. -/
def pollBackoff (cfg : PollConfig) (attempts : ℕ) : ℚ :=
  min (cfg.pollInterval * (3/2) ^ attempts) 30000

/-- The `while (attempts < maxPollAttempts)` loop of
`pollVideoGeneration`.  One iteration: issue the status request; on
`succeed` return the video URL; a reported `failed` status throws inside
the same `try`, so it lands in the `catch` below exactly like a request
error; `submitted`/`processing`/unknown statuses (and a non-zero response
code) fall through to the fixed-interval sleep and the next attempt.  The
`catch` increments the shared attempt counter, gives up with a wrapped
message once it reaches `maxPollAttempts`, and otherwise sleeps the
capped growing backoff and retries.  `fuel` stands for
`maxPollAttempts - attempts` and makes the recursion structural. -/
def pollGo (cfg : PollConfig) (poll : ℕ → PollStep) :
    ℕ → ℕ → ℕ → List ℚ → PollRun
  | 0, _, requests, delays =>
      { outcome := .error ("Video generation timed out after " ++
          toString cfg.maxPollAttempts ++ " attempts")
        requests := requests
        delays := delays }
  | fuel + 1, attempts, requests, delays =>
      match poll attempts with
      | .response code status =>
          if code = 0 then
            match status with
            | .succeed url =>
                { outcome := .ok url, requests := requests + 1, delays := delays }
            | .failed reason =>
                -- the throw on a reported failed status lands in the same
                -- catch block as a request error
                if attempts + 1 ≥ cfg.maxPollAttempts then
                  { outcome := .error ("Video generation polling failed: " ++
                      ("Video generation failed: " ++ failReasonText reason))
                    requests := requests + 1
                    delays := delays }
                else
                  pollGo cfg poll fuel (attempts + 1) (requests + 1)
                    (delays ++ [pollBackoff cfg (attempts + 1)])
            | _ =>
                pollGo cfg poll fuel (attempts + 1) (requests + 1)
                  (if attempts + 1 < cfg.maxPollAttempts then
                     delays ++ [cfg.pollInterval]
                   else delays)
          else
            pollGo cfg poll fuel (attempts + 1) (requests + 1)
              (if attempts + 1 < cfg.maxPollAttempts then
                 delays ++ [cfg.pollInterval]
               else delays)
      | .requestError m =>
          if attempts + 1 ≥ cfg.maxPollAttempts then
            { outcome := .error ("Video generation polling failed: " ++ m)
              requests := requests + 1
              delays := delays }
          else
            pollGo cfg poll fuel (attempts + 1) (requests + 1)
              (delays ++ [pollBackoff cfg (attempts + 1)])

/-- `pollVideoGeneration(taskId)` with the observation oracle `poll`
(indexed by the attempt counter, which both loop paths increment by
exactly one per iteration). -/
def pollVideoGeneration (cfg : PollConfig) (poll : ℕ → PollStep) : PollRun :=
  pollGo cfg poll cfg.maxPollAttempts 0 0 []

/-- A task that the provider reports as `failed`, with the given reason,
on every poll. -/
def constFailedPollWith (r : String) : ℕ → PollStep :=
  fun _ => .response 0 (.failed (some r))

/-- The poll run against a task that is reported `failed` with reason `r`
on every poll, under the default settings. -/
def pollRunFailed (r : String) : PollRun :=
  pollVideoGeneration defaultPollConfig (constFailedPollWith r)

/- ===== provider calls and the strategy-fallback loop ===== -/

/-- Outcome of one underlying provider interaction. -/
inductive CallResult where
  | success (url : String)
  | failure (msg : String)
deriving DecidableEq, Repr

/-- The provider world: whether the Replicate token is configured, the
outcome of the i-th `replicate.run` call, and the outcome of the i-th
direct Kling API generation (its submit-then-poll sequence condensed to
the message thrown inside the `try`, or the resolved video URL). -/
structure KlingEnv where
  replicateToken : Bool
  replicateRun : ℕ → CallResult
  directCall : ℕ → CallResult

/-- Indices of the next Replicate call and the next direct API call. -/
structure CallState where
  rIdx : ℕ
  dIdx : ℕ
deriving DecidableEq, Repr

/-- The value a successful generation resolves to (the fields the
fallback logic looks at: URL and the `method` tag; prompt wording is
orthogonal to control flow and not tracked). -/
structure VideoResult where
  videoUrl : String
  method : String
  mood : String
deriving DecidableEq, Repr

/-- `generateVideoViaReplicate`: throws when the token is missing;
otherwise resolves `replicate.run` and returns the result tagged
`replicate`. -/
def generateVideoViaReplicate (env : KlingEnv) (mood : String)
    (st : CallState) : Except String VideoResult × CallState :=
  if env.replicateToken = false then
    (.error ("Replicate API token not available"), st)
  else
    match env.replicateRun st.rIdx with
    | .success url => (.ok ⟨url, "replicate", mood⟩, ⟨st.rIdx + 1, st.dIdx⟩)
    | .failure m => (.error m, ⟨st.rIdx + 1, st.dIdx⟩)

/-- `generateVideoViaDirect`: one direct Kling API generation; any error
inside is rethrown wrapped. -/
def generateVideoViaDirect (env : KlingEnv) (mood : String)
    (st : CallState) : Except String VideoResult × CallState :=
  match env.directCall st.dIdx with
  | .success url => (.ok ⟨url, "direct_api", mood⟩, ⟨st.rIdx, st.dIdx + 1⟩)
  | .failure m =>
      (.error ("Failed to generate " ++ mood ++ " mood video via direct API: " ++ m),
       ⟨st.rIdx, st.dIdx + 1⟩)

/-- `generateVideoWithCameraControlDirect`: the direct-API generation
used as the fallback of the camera-control path. -/
def generateVideoWithCameraControlDirect (env : KlingEnv) (mood : String)
    (st : CallState) : Except String VideoResult × CallState :=
  match env.directCall st.dIdx with
  | .success url => (.ok ⟨url, "direct_api_camera", mood⟩, ⟨st.rIdx, st.dIdx + 1⟩)
  | .failure m =>
      (.error ("Failed to generate " ++ mood ++
         " mood video with camera control via direct API: " ++ m),
       ⟨st.rIdx, st.dIdx + 1⟩)

/-- `generateVideo`: try Replicate first; on any Replicate error fall
back to the direct API; an error of the fallback is rethrown wrapped. -/
def generateVideo (env : KlingEnv) (mood : String) (st : CallState) :
    Except String VideoResult × CallState :=
  match generateVideoViaReplicate env mood st with
  | (.ok r, st2) => (.ok r, st2)
  | (.error _, st2) =>
      match generateVideoViaDirect env mood st2 with
      | (.ok r, st3) => (.ok r, st3)
      | (.error m, st3) =>
          (.error ("Failed to generate " ++ mood ++ " mood video: " ++ m), st3)

/-- `generateVideoWithCameraControl`: Replicate first (with a
camera-enhanced prompt), then the direct camera-control API; an error of
the fallback is rethrown wrapped. -/
def generateVideoWithCameraControl (env : KlingEnv) (mood : String)
    (st : CallState) : Except String VideoResult × CallState :=
  match generateVideoViaReplicate env mood st with
  | (.ok r, st2) => (.ok r, st2)
  | (.error _, st2) =>
      match generateVideoWithCameraControlDirect env mood st2 with
      | (.ok r, st3) => (.ok r, st3)
      | (.error m, st3) =>
          (.error ("Failed to generate " ++ mood ++ " mood video with camera control: " ++ m),
           st3)

/-- The strategy chosen for the n-th attempt of
`generateVideoWithFallback`: camera controls on attempt 1, standard
generation on attempt 2, and the simplified-prompt standard generation
(same call graph; the prompt text is not control flow) afterwards. -/
def strategyCall (env : KlingEnv) (mood : String) (attempt : ℕ)
    (st : CallState) : Except String VideoResult × CallState :=
  if attempt = 1 then generateVideoWithCameraControl env mood st
  else generateVideo env mood st

/-- Outcome of a whole `generateVideoWithFallback` call: result, how many
strategy attempts ran, the inter-attempt sleeps (ms), and the last
stored error message. -/
structure FallbackRun where
  outcome : Except String VideoResult
  strategyAttempts : ℕ
  delays : List ℚ
  lastErrorMsg : String
deriving DecidableEq, Repr

/-- The `for (attempt = 1..maxRetries)` loop of
`generateVideoWithFallback`: on success return immediately; on failure
store the error, sleep `2 ** attempt * 2000` ms unless this was the last
attempt, and continue; after the loop throw carrying the last error's
message.  `fuel` stands for `maxRetries + 1 - attempt`. -/
def fallbackGo (env : KlingEnv) (mood : String) (maxRetries : ℕ) :
    ℕ → ℕ → CallState → ℕ → List ℚ → String → FallbackRun
  | 0, _, _, made, delays, lastErr =>
      { outcome := .error (mood ++ " mood video generation failed after " ++
          toString maxRetries ++ " attempts: " ++ lastErr)
        strategyAttempts := made
        delays := delays
        lastErrorMsg := lastErr }
  | fuel + 1, attempt, st, made, delays, lastErr =>
      match strategyCall env mood attempt st with
      | (.ok r, _) =>
          { outcome := .ok r
            strategyAttempts := made + 1
            delays := delays
            lastErrorMsg := lastErr }
      | (.error m, st2) =>
          fallbackGo env mood maxRetries fuel (attempt + 1) st2 (made + 1)
            (if attempt < maxRetries then delays ++ [2 ^ attempt * 2000] else delays)
            m

/-- `generateVideoWithFallback` with `maxRetries = 3`. -/
def generateVideoWithFallback (env : KlingEnv) (mood : String) : FallbackRun :=
  fallbackGo env mood 3 3 1 ⟨0, 0⟩ 0 [] ""

/-- A provider world where every call of every provider fails. -/
def envAllFail : KlingEnv :=
  { replicateToken := true
    replicateRun := fun _ => .failure "replicate down"
    directCall := fun _ => .failure "kling down" }

/-- A provider world where the primary provider (Replicate) always fails
and the secondary (direct Kling API) always succeeds. -/
def envPrimaryFails : KlingEnv :=
  { replicateToken := true
    replicateRun := fun _ => .failure "replicate down"
    directCall := fun _ => .success "https://kling.example/video.mp4" }

end GenAIVideo

namespace GenAIVideo

/- ===== theorems ===== -/

theorem trimAndMux_eq_ok {inp : TrimInput} {plan : ClipPlan}
    (h : trimAndMux inp = .ok plan) :
    ∃ dur, inp.probeResult = .num dur ∧
      plan = buildPlan dur inp.fadeTime inp.subtitleText inp.idx inp.totalClips := by
  unfold trimAndMux at h
  split at h
  · exact absurd h (by simp)
  · split at h
    · exact absurd h (by simp)
    · split at h
      · exact absurd h (by simp)
      · rename_i dur heq
        split at h
        · exact ⟨dur, heq, (Except.ok.injEq _ _).mp h |>.symm⟩
        · exact absurd h (by simp)

theorem computeFades_audio_eq_video (dur ft : ℚ) (idx n : ℕ) :
    (computeFades dur ft idx n).2 = (computeFades dur ft idx n).1 := by
  unfold computeFades
  split_ifs <;> rfl

theorem computeFades_dur (dur ft : ℚ) (idx n : ℕ) :
    ∀ f ∈ (computeFades dur ft idx n).1, f.dur = ft := by
  unfold computeFades
  split_ifs <;> simp_all [Fade.dur]

theorem computeFades_only (dur ft : ℚ) {idx n : ℕ}
    (h0 : idx = 0) (hn : idx + 1 = n) :
    (computeFades dur ft idx n).1 =
      [⟨.fadeIn, 0, ft⟩, ⟨.fadeOut, dur - ft, ft⟩] := by
  unfold computeFades
  split_ifs <;> first | rfl | omega

theorem computeFades_first (dur ft : ℚ) {idx n : ℕ}
    (h0 : idx = 0) (hn : idx + 1 ≠ n) :
    (computeFades dur ft idx n).1 = [⟨.fadeIn, 0, ft⟩] := by
  unfold computeFades
  split_ifs <;> first | rfl | omega

theorem computeFades_last (dur ft : ℚ) {idx n : ℕ}
    (h0 : idx ≠ 0) (hn : idx + 1 = n) :
    (computeFades dur ft idx n).1 = [⟨.fadeOut, dur - ft, ft⟩] := by
  unfold computeFades
  split_ifs <;> first | rfl | omega

theorem computeFades_middle (dur ft : ℚ) {idx n : ℕ}
    (h0 : idx ≠ 0) (hn : idx + 1 ≠ n) :
    (computeFades dur ft idx n).1 = [] := by
  unfold computeFades
  split_ifs <;> first | rfl | omega

/-- C1: for every clip processed by `trimAndMux` with the fixed fade
duration 0.5s, the fade windows are a function of the clip's position
class alone: an only clip (first and last) gets a fade-in at 0 and a
fade-out ending exactly at the audio duration, a first clip gets only the
fade-in, a last clip only the fade-out, a middle clip none; every fade
lasts 0.5s and the audio fade filters are exactly the video fade
filters (same kinds, start times and durations). -/
theorem fade_windows_by_position (inp : TrimInput) (plan : ClipPlan)
    (h : trimAndMux inp = .ok plan) (hf : inp.fadeTime = 1/2) :
    plan.audioFades = plan.videoFades ∧
    (∀ f ∈ plan.videoFades, f.dur = 1/2) ∧
    ((inp.idx = 0 ∧ inp.idx + 1 = inp.totalClips) →
      plan.videoFades =
        [⟨.fadeIn, 0, 1/2⟩, ⟨.fadeOut, plan.dur - 1/2, 1/2⟩] ∧
      ∃ f ∈ plan.videoFades, f.kind = .fadeOut ∧ f.start + f.dur = plan.dur) ∧
    ((inp.idx = 0 ∧ inp.idx + 1 ≠ inp.totalClips) →
      plan.videoFades = [⟨.fadeIn, 0, 1/2⟩]) ∧
    ((inp.idx ≠ 0 ∧ inp.idx + 1 = inp.totalClips) →
      plan.videoFades = [⟨.fadeOut, plan.dur - 1/2, 1/2⟩]) ∧
    ((inp.idx ≠ 0 ∧ inp.idx + 1 ≠ inp.totalClips) →
      plan.videoFades = []) := by
  obtain ⟨dur, -, hplan⟩ := trimAndMux_eq_ok h
  subst hplan
  rw [hf]
  refine ⟨computeFades_audio_eq_video ..,
    computeFades_dur dur (1/2) inp.idx inp.totalClips, ?_, ?_, ?_, ?_⟩
  · rintro ⟨h0, hn⟩
    rw [show (buildPlan dur (1/2) inp.subtitleText inp.idx inp.totalClips).videoFades
          = (computeFades dur (1/2) inp.idx inp.totalClips).1 from rfl,
        computeFades_only dur (1/2) h0 hn]
    refine ⟨rfl, ⟨.fadeOut, dur - 1/2, 1/2⟩, by simp, rfl, ?_⟩
    show dur - 1/2 + 1/2 = dur
    ring
  · rintro ⟨h0, hn⟩
    exact computeFades_first dur (1/2) h0 hn
  · rintro ⟨h0, hn⟩
    exact computeFades_last dur (1/2) h0 hn
  · rintro ⟨h0, hn⟩
    exact computeFades_middle dur (1/2) h0 hn

/-- Witness for `fade_windows_by_position` at a concrete single-clip
input. -/
theorem fade_windows_by_position_witness :
    trimAndMux trimInputOnly = .ok (buildPlan 4 (1/2) "narration" 0 1) ∧
    trimInputOnly.fadeTime = 1/2 ∧
    ((buildPlan 4 (1/2) "narration" 0 1).audioFades =
        (buildPlan 4 (1/2) "narration" 0 1).videoFades ∧
    (∀ f ∈ (buildPlan 4 (1/2) "narration" 0 1).videoFades, f.dur = 1/2) ∧
    ((trimInputOnly.idx = 0 ∧ trimInputOnly.idx + 1 = trimInputOnly.totalClips) →
      (buildPlan 4 (1/2) "narration" 0 1).videoFades =
        [⟨.fadeIn, 0, 1/2⟩, ⟨.fadeOut, (buildPlan 4 (1/2) "narration" 0 1).dur - 1/2, 1/2⟩] ∧
      ∃ f ∈ (buildPlan 4 (1/2) "narration" 0 1).videoFades,
        f.kind = .fadeOut ∧ f.start + f.dur = (buildPlan 4 (1/2) "narration" 0 1).dur) ∧
    ((trimInputOnly.idx = 0 ∧ trimInputOnly.idx + 1 ≠ trimInputOnly.totalClips) →
      (buildPlan 4 (1/2) "narration" 0 1).videoFades = [⟨.fadeIn, 0, 1/2⟩]) ∧
    ((trimInputOnly.idx ≠ 0 ∧ trimInputOnly.idx + 1 = trimInputOnly.totalClips) →
      (buildPlan 4 (1/2) "narration" 0 1).videoFades =
        [⟨.fadeOut, (buildPlan 4 (1/2) "narration" 0 1).dur - 1/2, 1/2⟩]) ∧
    ((trimInputOnly.idx ≠ 0 ∧ trimInputOnly.idx + 1 ≠ trimInputOnly.totalClips) →
      (buildPlan 4 (1/2) "narration" 0 1).videoFades = [])) :=
  ⟨rfl, rfl,
   fade_windows_by_position trimInputOnly (buildPlan 4 (1/2) "narration" 0 1)
     rfl rfl⟩

/-- C3 counterexample: the probe guard in `trimAndMux` is only
`isNaN(dur)`; a negative probed duration is not treated as a fatal error
— the call succeeds, so the claim that any NaN or negative duration makes
the scene processing throw is false at this input. -/
theorem negative_probe_not_fatal :
    (trimAndMux trimInputNegativeDur).isOk = true ∧
    trimAndMux trimInputNegativeDur = .ok (buildPlan (-2) (1/2) "narration" 1 3) := by
  exact ⟨rfl, rfl⟩

/-- C3 (amended): a NaN probe result is fatal for the scene — the call
errors and the value is never silently replaced by 0 (on success the
plan's duration is exactly the probed value, even when negative); the
subtitle end-time formatter, and only it, clamps NaN or negative inputs
to 0 for display, while non-negative inputs are rendered unclamped. -/
theorem nan_probe_fatal_formatter_clamps (inp : TrimInput) (q : ℚ) :
    (inp.probeResult = .nan → ∃ e, trimAndMux inp = .error e) ∧
    (∀ plan, trimAndMux inp = .ok plan → inp.probeResult = .num plan.dur) ∧
    formatTimeMs .nan = 0 ∧
    (q < 0 → formatTimeMs (.num q) = 0) ∧
    (0 ≤ q → formatTimeMs (.num q) = round (q * 1000)) := by
  refine ⟨?_, ?_, rfl, ?_, ?_⟩
  · intro hnan
    unfold trimAndMux
    rw [hnan]
    split_ifs <;> exact ⟨_, rfl⟩
  · intro plan h
    obtain ⟨dur, hd, hplan⟩ := trimAndMux_eq_ok h
    rw [hd, hplan]
    rfl
  · intro hq
    simp [formatTimeMs, hq]
  · intro hq
    simp [formatTimeMs, not_lt.mpr hq]

/-- Witness for `nan_probe_fatal_formatter_clamps` at a NaN-probing input
and the value `-1`. -/
theorem nan_probe_fatal_formatter_clamps_witness :
    (trimInputNegativeDur.probeResult = .nan →
      ∃ e, trimAndMux trimInputNegativeDur = .error e) ∧
    (∀ plan, trimAndMux trimInputNegativeDur = .ok plan →
      trimInputNegativeDur.probeResult = .num plan.dur) ∧
    formatTimeMs .nan = 0 ∧
    ((-1 : ℚ) < 0 → formatTimeMs (.num (-1)) = 0) ∧
    ((0 : ℚ) ≤ -1 → formatTimeMs (.num (-1)) = round ((-1 : ℚ) * 1000)) :=
  nan_probe_fatal_formatter_clamps trimInputNegativeDur (-1)

/-- C6: for every successfully processed scene, the video is trimmed to
the probed audio duration plus the fixed 0.3s padding (and, reading a
source of any length under that `-t` limit, the output never exceeds the
source), and the single subtitle cue spans from 0 exactly to
`audioDuration + 0.35` and carries the narration text verbatim. -/
theorem trim_and_subtitle_artifact (inp : TrimInput) (plan : ClipPlan)
    (h : trimAndMux inp = .ok plan) :
    plan.trimDuration = plan.dur + 3/10 ∧
    plan.srtCueStartMs = 0 ∧
    plan.srtCueEndInput = plan.dur + 35/100 ∧
    plan.srtText = inp.subtitleText ∧
    (∀ sourceLen : ℚ, trimmedOutputLen sourceLen plan.trimDuration ≤ sourceLen) := by
  obtain ⟨dur, -, hplan⟩ := trimAndMux_eq_ok h
  subst hplan
  exact ⟨rfl, rfl, rfl, rfl, fun s => min_le_left _ _⟩

/-- C2 counterexample: when every poll reports the task status `failed`,
`pollVideoGeneration` does not terminate after the first observation —
the throw on a reported failure is caught by the retry handler of the
same loop, so under the default settings all 60 poll attempts run before
the call errors (with a message that wraps the reported reason in the
polling-failure wrapper). -/
theorem failed_status_polls_again :
    (pollRunFailed "quota exceeded").requests = 60 ∧
    (pollRunFailed "quota exceeded").requests ≠ 1 ∧
    (pollRunFailed "quota exceeded").outcome =
      .error ("Video generation polling failed: " ++
        ("Video generation failed: " ++ failReasonText (some "quota exceeded"))) := by
  refine ⟨by decide, by decide, by decide⟩

theorem range_map_shift (b : ℕ → ℚ) (a g : ℕ) :
    (List.range (g + 1)).map (fun j => b (a + j)) =
      b a :: (List.range g).map (fun j => b (a + 1 + j)) := by
  rw [List.range_succ_eq_map, List.map_cons, List.map_map]
  refine congrArg₂ _ (congrArg b (by omega)) ?_
  refine congrArg₂ _ ?_ rfl
  funext x
  exact congrArg b (by omega)

theorem pollGo_constFailed (r : String) :
    ∀ fuel attempts requests delays,
      fuel ≠ 0 →
      attempts + fuel = 60 →
      pollGo defaultPollConfig (constFailedPollWith r) fuel attempts requests delays =
        { outcome := .error ("Video generation polling failed: " ++
            ("Video generation failed: " ++ failReasonText (some r)))
          requests := requests + fuel
          delays := delays ++ (List.range (fuel - 1)).map
            (fun j => pollBackoff defaultPollConfig (attempts + 1 + j)) } := by
  intro fuel
  induction fuel with
  | zero => intro attempts requests delays h0 _; exact absurd rfl h0
  | succ f ih =>
      intro attempts requests delays _ hsum
      rw [pollGo]
      show (if attempts + 1 ≥ defaultPollConfig.maxPollAttempts then _ else _) = _
      by_cases hlast : f = 0
      · subst hlast
        rw [if_pos (by show attempts + 1 ≥ 60; omega)]
        simp
      · rw [if_neg (by show ¬ attempts + 1 ≥ 60; omega)]
        rw [ih (attempts + 1) (requests + 1) _ hlast (by omega)]
        obtain ⟨g, rfl⟩ : ∃ g, f = g + 1 := ⟨f - 1, by omega⟩
        simp only [PollRun.mk.injEq, List.append_assoc, List.singleton_append,
          Nat.add_sub_cancel]
        refine ⟨trivial, by omega, ?_⟩
        rw [range_map_shift (pollBackoff defaultPollConfig) (attempts + 1) g]

/-- C2 (amended): a task status of `failed` does not terminate the
provider call immediately: the throw lands in the catch block that also
handles polling errors, which shares the single bounded attempt counter
(60 under the default settings) — so a persistently failed task is polled
all 60 times, the final error wraps the provider's reported reason inside
the polling-failure message, and each retry sleeps a growing backoff
(factor 1.5 on the 10s interval) capped at 30s. -/
theorem failed_status_shares_poll_retry (r : String) :
    (pollRunFailed r).requests = 60 ∧
    (pollRunFailed r).outcome =
      .error ("Video generation polling failed: " ++
        ("Video generation failed: " ++ failReasonText (some r))) ∧
    (pollRunFailed r).delays =
      (List.range 59).map (fun j => pollBackoff defaultPollConfig (1 + j)) ∧
    (∀ d ∈ (pollRunFailed r).delays, d ≤ 30000) ∧
    (pollRunFailed r).delays.Chain' (· ≤ ·) := by
  have h := pollGo_constFailed r 60 0 0 [] (by omega) (by omega)
  have hrun : pollRunFailed r =
      { outcome := .error ("Video generation polling failed: " ++
          ("Video generation failed: " ++ failReasonText (some r)))
        requests := 0 + 60
        delays := [] ++ (List.range (60 - 1)).map
          (fun j => pollBackoff defaultPollConfig (0 + 1 + j)) } := h
  rw [hrun]
  refine ⟨rfl, rfl, by norm_num, ?_, ?_⟩
  · intro d hd
    simp only [List.nil_append, List.mem_map] at hd
    obtain ⟨j, -, rfl⟩ := hd
    exact min_le_right _ _
  · simp only [List.nil_append]
    rw [List.chain'_map]
    have h59 : (60 : ℕ) - 1 = 58 + 1 := by norm_num
    rw [h59, List.chain'_range_succ]
    intro m _
    refine min_le_min ?_ le_rfl
    refine mul_le_mul_of_nonneg_left ?_ (by norm_num [defaultPollConfig])
    refine pow_le_pow_right₀ (by norm_num) (by omega)

/-- Witness for `failed_status_shares_poll_retry` at the reason
string `boom`. -/
theorem failed_status_shares_poll_retry_witness :
    (pollRunFailed "boom").requests = 60 ∧
    (pollRunFailed "boom").outcome =
      .error ("Video generation polling failed: " ++
        ("Video generation failed: " ++ failReasonText (some "boom"))) ∧
    (pollRunFailed "boom").delays =
      (List.range 59).map (fun j => pollBackoff defaultPollConfig (1 + j)) ∧
    (∀ d ∈ (pollRunFailed "boom").delays, d ≤ 30000) ∧
    (pollRunFailed "boom").delays.Chain' (· ≤ ·) :=
  failed_status_shares_poll_retry "boom"

/-- C4: when every provider call fails on every strategy (and the
Replicate token is configured so the primary is really exercised),
`generateVideoWithFallback` performs exactly 3 strategy attempts, sleeps
`2000 * 2 ** attempt` ms between consecutive attempts (so 4000ms then
8000ms), and terminally throws an error whose message carries the last
stored underlying error's message — which is the wrapped failure of the
third attempt's direct-API fallback. -/
theorem provider_exhaustion_three_attempts (env : KlingEnv) (mood : String)
    (htok : env.replicateToken = true)
    (hr : ∀ i, ∃ m, env.replicateRun i = .failure m)
    (hd : ∀ i, ∃ m, env.directCall i = .failure m) :
    (generateVideoWithFallback env mood).strategyAttempts = 3 ∧
    (generateVideoWithFallback env mood).delays = [2 ^ 1 * 2000, 2 ^ 2 * 2000] ∧
    (generateVideoWithFallback env mood).outcome =
      .error (mood ++ " mood video generation failed after " ++ toString 3 ++
        " attempts: " ++ (generateVideoWithFallback env mood).lastErrorMsg) ∧
    (∀ m2, env.directCall 2 = .failure m2 →
      (generateVideoWithFallback env mood).lastErrorMsg =
        "Failed to generate " ++ mood ++ " mood video: " ++
          ("Failed to generate " ++ mood ++ " mood video via direct API: " ++ m2)) := by
  obtain ⟨r0, hr0⟩ := hr 0
  obtain ⟨r1, hr1⟩ := hr 1
  obtain ⟨r2, hr2⟩ := hr 2
  obtain ⟨d0, hd0⟩ := hd 0
  obtain ⟨d1, hd1⟩ := hd 1
  obtain ⟨d2, hd2⟩ := hd 2
  have hrun : generateVideoWithFallback env mood =
      { outcome := .error (mood ++ " mood video generation failed after " ++
          toString 3 ++ " attempts: " ++
          ("Failed to generate " ++ mood ++ " mood video: " ++
            ("Failed to generate " ++ mood ++ " mood video via direct API: " ++ d2)))
        strategyAttempts := 3
        delays := [2 ^ 1 * 2000, 2 ^ 2 * 2000]
        lastErrorMsg :=
          "Failed to generate " ++ mood ++ " mood video: " ++
            ("Failed to generate " ++ mood ++ " mood video via direct API: " ++ d2) } := by
    simp only [generateVideoWithFallback, fallbackGo, strategyCall,
      generateVideoWithCameraControl, generateVideoWithCameraControlDirect,
      generateVideo, generateVideoViaReplicate, generateVideoViaDirect, htok]
    norm_num [hr0, hr1, hr2, hd0, hd1, hd2]
  rw [hrun]
  refine ⟨rfl, rfl, rfl, ?_⟩
  intro m2 hm2
  rw [hd2] at hm2
  cases hm2
  rfl

/-- Witness for `provider_exhaustion_three_attempts` at the concrete
all-failing provider world and the default mood. -/
theorem provider_exhaustion_three_attempts_witness :
    envAllFail.replicateToken = true ∧
    (∀ i, ∃ m, envAllFail.replicateRun i = .failure m) ∧
    (∀ i, ∃ m, envAllFail.directCall i = .failure m) ∧
    ((generateVideoWithFallback envAllFail "professional").strategyAttempts = 3 ∧
    (generateVideoWithFallback envAllFail "professional").delays =
      [2 ^ 1 * 2000, 2 ^ 2 * 2000] ∧
    (generateVideoWithFallback envAllFail "professional").outcome =
      .error ("professional" ++ " mood video generation failed after " ++ toString 3 ++
        " attempts: " ++ (generateVideoWithFallback envAllFail "professional").lastErrorMsg) ∧
    (∀ m2, envAllFail.directCall 2 = .failure m2 →
      (generateVideoWithFallback envAllFail "professional").lastErrorMsg =
        "Failed to generate " ++ "professional" ++ " mood video: " ++
          ("Failed to generate " ++ "professional" ++
            " mood video via direct API: " ++ m2))) :=
  ⟨rfl, fun _ => ⟨"replicate down", rfl⟩, fun _ => ⟨"kling down", rfl⟩,
   provider_exhaustion_three_attempts envAllFail "professional" rfl
     (fun _ => ⟨"replicate down", rfl⟩) (fun _ => ⟨"kling down", rfl⟩)⟩

/-- C5: within a single strategy attempt, if the primary provider
(Replicate) always fails and the secondary (direct Kling API) always
succeeds, `generateVideoWithFallback` returns the secondary's result —
tagged with the camera-control direct method of attempt 1 — during the
first strategy attempt, with no inter-attempt sleep: provider fallback
happens before any strategy downgrade. -/
theorem secondary_succeeds_first_attempt (env : KlingEnv) (mood : String)
    (htok : env.replicateToken = true)
    (hr : ∀ i, ∃ m, env.replicateRun i = .failure m)
    (hd : ∀ i, ∃ u, env.directCall i = .success u) :
    (generateVideoWithFallback env mood).strategyAttempts = 1 ∧
    (generateVideoWithFallback env mood).delays = [] ∧
    (∀ u, env.directCall 0 = .success u →
      (generateVideoWithFallback env mood).outcome =
        .ok ⟨u, "direct_api_camera", mood⟩) := by
  obtain ⟨r0, hr0⟩ := hr 0
  obtain ⟨u0, hu0⟩ := hd 0
  have hrun : generateVideoWithFallback env mood =
      { outcome := .ok ⟨u0, "direct_api_camera", mood⟩
        strategyAttempts := 1
        delays := []
        lastErrorMsg := "" } := by
    simp only [generateVideoWithFallback, fallbackGo, strategyCall,
      generateVideoWithCameraControl, generateVideoWithCameraControlDirect,
      generateVideoViaReplicate, htok]
    norm_num [hr0, hu0]
  rw [hrun]
  refine ⟨rfl, rfl, ?_⟩
  intro u hu
  rw [hu0] at hu
  cases hu
  rfl

/-- Witness for `secondary_succeeds_first_attempt` at the concrete
primary-fails world and the default mood. -/
theorem secondary_succeeds_first_attempt_witness :
    envPrimaryFails.replicateToken = true ∧
    (∀ i, ∃ m, envPrimaryFails.replicateRun i = .failure m) ∧
    (∀ i, ∃ u, envPrimaryFails.directCall i = .success u) ∧
    ((generateVideoWithFallback envPrimaryFails "professional").strategyAttempts = 1 ∧
    (generateVideoWithFallback envPrimaryFails "professional").delays = [] ∧
    (∀ u, envPrimaryFails.directCall 0 = .success u →
      (generateVideoWithFallback envPrimaryFails "professional").outcome =
        .ok ⟨u, "direct_api_camera", "professional"⟩)) :=
  ⟨rfl, fun _ => ⟨"replicate down", rfl⟩,
   fun _ => ⟨"https://kling.example/video.mp4", rfl⟩,
   secondary_succeeds_first_attempt envPrimaryFails "professional" rfl
     (fun _ => ⟨"replicate down", rfl⟩)
     (fun _ => ⟨"https://kling.example/video.mp4", rfl⟩)⟩

/-- Witness for `trim_and_subtitle_artifact` at the concrete single-clip
input. -/
theorem trim_and_subtitle_artifact_witness :
    trimAndMux trimInputOnly = .ok (buildPlan 4 (1/2) "narration" 0 1) ∧
    ((buildPlan 4 (1/2) "narration" 0 1).trimDuration =
        (buildPlan 4 (1/2) "narration" 0 1).dur + 3/10 ∧
    (buildPlan 4 (1/2) "narration" 0 1).srtCueStartMs = 0 ∧
    (buildPlan 4 (1/2) "narration" 0 1).srtCueEndInput =
        (buildPlan 4 (1/2) "narration" 0 1).dur + 35/100 ∧
    (buildPlan 4 (1/2) "narration" 0 1).srtText = trimInputOnly.subtitleText ∧
    (∀ sourceLen : ℚ,
      trimmedOutputLen sourceLen (buildPlan 4 (1/2) "narration" 0 1).trimDuration
        ≤ sourceLen)) :=
  ⟨rfl, trim_and_subtitle_artifact trimInputOnly (buildPlan 4 (1/2) "narration" 0 1) rfl⟩

theorem except_ok_inj {ε α : Type} {a b : α}
    (h : (Except.ok a : Except ε α) = .ok b) : a = b := by
  injection h

theorem computeFades_no_fadeIn {dur ft : ℚ} {idx n : ℕ} (h : idx ≠ 0) :
    ∀ f ∈ (computeFades dur ft idx n).1, f.kind ≠ FadeKind.fadeIn := by
  by_cases hn : idx + 1 = n
  · rw [computeFades_last dur ft h hn]
    intro f hf
    simp only [List.mem_singleton] at hf
    subst hf
    simp
  · rw [computeFades_middle dur ft h hn]
    intro f hf
    simp at hf

theorem computeFades_no_fadeOut {dur ft : ℚ} {idx n : ℕ} (h : idx + 1 ≠ n) :
    ∀ f ∈ (computeFades dur ft idx n).1, f.kind ≠ FadeKind.fadeOut := by
  by_cases h0 : idx = 0
  · rw [computeFades_first dur ft h0 h]
    intro f hf
    simp only [List.mem_singleton] at hf
    subst hf
    simp
  · rw [computeFades_middle dur ft h0 h]
    intro f hf
    simp at hf

theorem skipsScene_false {narration : List NarrationAsset} {k : ℕ}
    {na : NarrationAsset} {ap : String}
    (hfind : narrationFor narration k = some na)
    (haud : na.audioPath = some ap) (hap : ap ≠ "") :
    skipsScene narration k = false := by
  simp only [skipsScene, hfind, haud]
  exact beq_eq_false_iff_ne.mpr hap

theorem processScenesGo_cons_skip {env : AssembleEnv} {n : ℕ}
    {narration : List NarrationAsset} {i : ℕ} {sv : SceneVideo}
    {rest : List SceneVideo}
    (h : skipsScene narration sv.sceneNumber = true) :
    processScenesGo env n narration i (sv :: rest) =
      processScenesGo env n narration (i + 1) rest := by
  cases hfind : narrationFor narration sv.sceneNumber with
  | none => simp only [processScenesGo, hfind]
  | some na =>
      cases haud : na.audioPath with
      | none => simp only [processScenesGo, hfind, haud]
      | some ap =>
          have hap : ap = "" := by
            by_contra hap
            rw [skipsScene_false hfind haud hap] at h
            cases h
          simp only [processScenesGo, hfind, haud]
          rw [if_pos hap]

theorem processScenesGo_keys_sublist (env : AssembleEnv) (n : ℕ)
    (narration : List NarrationAsset) :
    ∀ (svs : List SceneVideo) (i : ℕ) (clips : List ProcessedClip),
      processScenesGo env n narration i svs = .ok clips →
      List.Sublist (clips.map (fun c => c.sceneNumber))
        (svs.map (fun sv => sv.sceneNumber)) := by
  intro svs
  induction svs with
  | nil =>
      intro i clips h
      simp only [processScenesGo] at h
      obtain rfl := except_ok_inj h
      simp
  | cons sv rest ih =>
      intro i clips h
      cases hfind : narrationFor narration sv.sceneNumber with
      | none =>
          simp only [processScenesGo, hfind] at h
          exact (ih (i + 1) clips h).cons _
      | some na =>
          cases haud : na.audioPath with
          | none =>
              simp only [processScenesGo, hfind, haud] at h
              exact (ih (i + 1) clips h).cons _
          | some ap =>
              simp only [processScenesGo, hfind, haud] at h
              by_cases hap : ap = ""
              · rw [if_pos hap] at h
                exact (ih (i + 1) clips h).cons _
              · rw [if_neg hap] at h
                cases htm : trimAndMux (sceneTrimInput env n i sv ap) with
                | error e =>
                    simp only [htm] at h
                    exact absurd h (by simp)
                | ok plan =>
                    simp only [htm] at h
                    cases hrec : processScenesGo env n narration (i + 1) rest with
                    | error e =>
                        simp only [hrec] at h
                        exact absurd h (by simp)
                    | ok clips2 =>
                        simp only [hrec] at h
                        obtain rfl := except_ok_inj h
                        exact (ih (i + 1) clips2 hrec).cons₂ _

theorem processScenesGo_no_fadeIn (env : AssembleEnv) (n : ℕ)
    (narration : List NarrationAsset) :
    ∀ (svs : List SceneVideo) (i : ℕ), i ≠ 0 →
      ∀ clips, processScenesGo env n narration i svs = .ok clips →
      ∀ c ∈ clips, ∀ f ∈ c.plan.videoFades, f.kind ≠ FadeKind.fadeIn := by
  intro svs
  induction svs with
  | nil =>
      intro i hi clips h
      simp only [processScenesGo] at h
      obtain rfl := except_ok_inj h
      simp
  | cons sv rest ih =>
      intro i hi clips h
      cases hfind : narrationFor narration sv.sceneNumber with
      | none =>
          simp only [processScenesGo, hfind] at h
          exact ih (i + 1) (by omega) clips h
      | some na =>
          cases haud : na.audioPath with
          | none =>
              simp only [processScenesGo, hfind, haud] at h
              exact ih (i + 1) (by omega) clips h
          | some ap =>
              simp only [processScenesGo, hfind, haud] at h
              by_cases hap : ap = ""
              · rw [if_pos hap] at h
                exact ih (i + 1) (by omega) clips h
              · rw [if_neg hap] at h
                cases htm : trimAndMux (sceneTrimInput env n i sv ap) with
                | error e =>
                    simp only [htm] at h
                    exact absurd h (by simp)
                | ok plan =>
                    simp only [htm] at h
                    cases hrec : processScenesGo env n narration (i + 1) rest with
                    | error e =>
                        simp only [hrec] at h
                        exact absurd h (by simp)
                    | ok clips2 =>
                        simp only [hrec] at h
                        obtain rfl := except_ok_inj h
                        intro c hc
                        rcases List.mem_cons.mp hc with rfl | hc2
                        · obtain ⟨dur, -, hplan⟩ := trimAndMux_eq_ok htm
                          intro f hf
                          rw [hplan] at hf
                          exact computeFades_no_fadeIn hi f hf
                        · exact ih (i + 1) (by omega) clips2 hrec c hc2

theorem processScenesGo_no_fadeOut (env : AssembleEnv) (n : ℕ)
    (narration : List NarrationAsset) :
    ∀ (svs : List SceneVideo) (i : ℕ),
      (∀ j sv, svs[j]? = some sv → i + j + 1 = n →
        skipsScene narration sv.sceneNumber = true) →
      ∀ clips, processScenesGo env n narration i svs = .ok clips →
      ∀ c ∈ clips, ∀ f ∈ c.plan.videoFades, f.kind ≠ FadeKind.fadeOut := by
  intro svs
  induction svs with
  | nil =>
      intro i hlate clips h
      simp only [processScenesGo] at h
      obtain rfl := except_ok_inj h
      simp
  | cons sv rest ih =>
      intro i hlate clips h
      cases hfind : narrationFor narration sv.sceneNumber with
      | none =>
          simp only [processScenesGo, hfind] at h
          refine ih (i + 1) ?_ clips h
          intro j sv2 hj hjn
          exact hlate (j + 1) sv2 (by simpa using hj) (by omega)
      | some na =>
          cases haud : na.audioPath with
          | none =>
              simp only [processScenesGo, hfind, haud] at h
              refine ih (i + 1) ?_ clips h
              intro j sv2 hj hjn
              exact hlate (j + 1) sv2 (by simpa using hj) (by omega)
          | some ap =>
              simp only [processScenesGo, hfind, haud] at h
              by_cases hap : ap = ""
              · rw [if_pos hap] at h
                refine ih (i + 1) ?_ clips h
                intro j sv2 hj hjn
                exact hlate (j + 1) sv2 (by simpa using hj) (by omega)
              · rw [if_neg hap] at h
                cases htm : trimAndMux (sceneTrimInput env n i sv ap) with
                | error e =>
                    simp only [htm] at h
                    exact absurd h (by simp)
                | ok plan =>
                    simp only [htm] at h
                    cases hrec : processScenesGo env n narration (i + 1) rest with
                    | error e =>
                        simp only [hrec] at h
                        exact absurd h (by simp)
                    | ok clips2 =>
                        simp only [hrec] at h
                        obtain rfl := except_ok_inj h
                        intro c hc
                        rcases List.mem_cons.mp hc with rfl | hc2
                        · have hin : i + 1 ≠ n := by
                            intro hcontr
                            have hs := hlate 0 sv (by simp) (by omega)
                            rw [skipsScene_false hfind haud hap] at hs
                            cases hs
                          obtain ⟨dur, -, hplan⟩ := trimAndMux_eq_ok htm
                          intro f hf
                          rw [hplan] at hf
                          exact computeFades_no_fadeOut hin f hf
                        · refine ih (i + 1) ?_ clips2 hrec c hc2
                          intro j sv2 hj hjn
                          exact hlate (j + 1) sv2 (by simpa using hj) (by omega)

theorem assembleAnimation_eq_ok {env : AssembleEnv} {svs : List SceneVideo}
    {narration : List NarrationAsset} {out : AssembleOutput}
    (h : assembleAnimation env svs narration = .ok out) :
    ∃ processed, processScenesGo env svs.length narration 0 svs = .ok processed ∧
      processed.length ≠ 0 ∧
      out = { clips := sortClips processed
              manifest := (sortClips processed).map (fun c => c.path)
              concatArgs := ["-f", "concat", "-safe", "0", "-i", concatListPath,
                "-c", "copy", "-movflags", "+faststart", animOutputPath]
              manifestDeleted := env.unlinkConcatOk
              outputPath := animOutputPath } := by
  unfold assembleAnimation at h
  cases hp : processScenesGo env svs.length narration 0 svs with
  | error e =>
      simp only [hp] at h
      exact absurd h (by simp)
  | ok processed =>
      simp only [hp] at h
      by_cases hlen : processed.length = 0
      · rw [if_pos hlen] at h
        exact absurd h (by simp)
      · rw [if_neg hlen] at h
        by_cases hc : env.concatExit = 0
        · rw [if_pos hc] at h
          exact ⟨processed, rfl, hlen, (except_ok_inj h).symm⟩
        · rw [if_neg hc] at h
          exact absurd h (by simp)

theorem sortClips_perm (l : List ProcessedClip) : List.Perm (sortClips l) l :=
  List.perm_insertionSort bySceneNumber l

theorem sortClips_sorted (l : List ProcessedClip) :
    (sortClips l).Pairwise bySceneNumber :=
  List.sorted_insertionSort bySceneNumber l

/-- C7: `assembleAnimation` fails with the fatal no-clips error when zero
clips were successfully processed; on success (for input scenes with
pairwise-distinct scene numbers) the manifest lists the clip paths in the
clip order, the clips are sorted strictly ascending by scene number, the
concatenation uses stream copy and the faststart flag, the manifest is
deleted after success (when the deletion call itself succeeds — a
deletion failure is only warned about), the output path is returned, and
the clips are exactly the processed clips reordered (a permutation —
nothing is dropped, duplicated or mutated). -/
theorem assemble_timeline_props (env : AssembleEnv) (svs : List SceneVideo)
    (narration : List NarrationAsset)
    (hkeys : svs.Pairwise (fun a b => a.sceneNumber ≠ b.sceneNumber)) :
    (processScenesGo env svs.length narration 0 svs = .ok [] →
      assembleAnimation env svs narration =
        .error ("Failed to assemble animation: " ++ "No clips were successfully processed")) ∧
    (∀ out, assembleAnimation env svs narration = .ok out →
      out.clips.Pairwise (fun a b => a.sceneNumber < b.sceneNumber) ∧
      out.manifest = out.clips.map (fun c => c.path) ∧
      out.concatArgs = ["-f", "concat", "-safe", "0", "-i", concatListPath,
        "-c", "copy", "-movflags", "+faststart", animOutputPath] ∧
      (env.unlinkConcatOk = true → out.manifestDeleted = true) ∧
      out.outputPath = animOutputPath ∧
      (∃ processed, processScenesGo env svs.length narration 0 svs = .ok processed ∧
        out.clips.Perm processed)) := by
  constructor
  · intro hzero
    unfold assembleAnimation
    rw [hzero]
    rfl
  · intro out h
    obtain ⟨processed, hp, hne, hout⟩ := assembleAnimation_eq_ok h
    subst hout
    have hsub := processScenesGo_keys_sublist env svs.length narration svs 0 processed hp
    have hkeysm : (svs.map (fun sv => sv.sceneNumber)).Pairwise (· ≠ ·) :=
      (List.pairwise_map).mpr hkeys
    have hpm : (processed.map (fun c => c.sceneNumber)).Pairwise (· ≠ ·) :=
      List.Pairwise.sublist hsub hkeysm
    have hpne : processed.Pairwise (fun a b => a.sceneNumber ≠ b.sceneNumber) :=
      (List.pairwise_map).mp hpm
    have hsortne : (sortClips processed).Pairwise
        (fun a b => a.sceneNumber ≠ b.sceneNumber) := by
      refine ((sortClips_perm processed).pairwise_iff ?_).mpr hpne
      intro a b hab hba
      exact hab hba.symm
    have hsorted := sortClips_sorted processed
    refine ⟨?_, rfl, rfl, fun hu => hu, rfl, processed, hp, sortClips_perm processed⟩
    exact List.Pairwise.imp (fun hab => lt_of_le_of_ne hab.1 hab.2)
      (hsorted.and hsortne)

/-- Witness for `assemble_timeline_props` at the concrete three-scene
scenario. -/
theorem assemble_timeline_props_witness :
    svsC8.Pairwise (fun a b => a.sceneNumber ≠ b.sceneNumber) ∧
    assembleAnimation envC8 svsC8 narC8 = .ok outC8 ∧
    (outC8.clips.Pairwise (fun a b => a.sceneNumber < b.sceneNumber) ∧
     outC8.manifest = outC8.clips.map (fun c => c.path) ∧
     outC8.concatArgs = ["-f", "concat", "-safe", "0", "-i", concatListPath,
       "-c", "copy", "-movflags", "+faststart", animOutputPath] ∧
     (envC8.unlinkConcatOk = true → outC8.manifestDeleted = true) ∧
     outC8.outputPath = animOutputPath ∧
     (∃ processed, processScenesGo envC8 svsC8.length narC8 0 svsC8 = .ok processed ∧
       outC8.clips.Perm processed)) :=
  ⟨by decide, rfl,
   (assemble_timeline_props envC8 svsC8 narC8 (by decide)).2 outC8 rfl⟩

/-- C8: a scene whose narration audio is missing (here scene 2 of 3, a
soft speech-synthesis failure modelled by `generateVoice` returning
`null`) is excluded from assembly rather than aborting: the produced
narration assets cover only scenes 1 and 3, the assembled timeline
contains exactly the clips for scenes 1 and 3 in that order, and the
orchestrator run built on this assembly still terminates successfully. -/
theorem missing_audio_scene_excluded :
    narC8 = [⟨1, some "audio/narration_1.mp3"⟩, ⟨3, some "audio/narration_3.mp3"⟩] ∧
    (assembleAnimation envC8 svsC8 narC8).map
      (fun out => out.clips.map (fun c => c.sceneNumber)) = .ok [1, 3] ∧
    (generateAnimationRun
      { pipeline := (assembleAnimation envC8 svsC8 narC8).map (fun out => out.outputPath)
        copyOk := true
        dbOk := true
        workingDirExists := true
        rmOk := true }).result = .ok permanentVideoPath := by
  refine ⟨by decide, by decide, by decide⟩

/-- C10: fade positions are computed from the scene's index in the full
input list (`idx` over `sceneVideos` with `totalClips =
sceneVideos.length`), not from its position among the successfully
processed clips: in any successful assembly in which the first input
scene is skipped for missing narration audio, no clip of the resulting
timeline carries a fade-in, and if the last input scene is skipped no
clip carries a fade-out. -/
theorem fades_from_input_index (env : AssembleEnv) (svs : List SceneVideo)
    (narration : List NarrationAsset) (out : AssembleOutput)
    (h : assembleAnimation env svs narration = .ok out) :
    (∀ sv0, svs.head? = some sv0 →
      skipsScene narration sv0.sceneNumber = true →
      ∀ c ∈ out.clips, ∀ f ∈ c.plan.videoFades, f.kind ≠ FadeKind.fadeIn) ∧
    (∀ svl, svs.getLast? = some svl →
      skipsScene narration svl.sceneNumber = true →
      ∀ c ∈ out.clips, ∀ f ∈ c.plan.videoFades, f.kind ≠ FadeKind.fadeOut) := by
  obtain ⟨processed, hp, -, hout⟩ := assembleAnimation_eq_ok h
  subst hout
  constructor
  · intro sv0 hhead hskip c hc
    have hcp : c ∈ processed := ((sortClips_perm processed).mem_iff).mp hc
    cases svs with
    | nil => exact absurd hhead (by simp)
    | cons sv rest =>
        obtain rfl : sv = sv0 := by simpa using hhead
        rw [processScenesGo_cons_skip hskip] at hp
        exact processScenesGo_no_fadeIn env _ narration rest 1 (by omega) processed hp c hcp
  · intro svl hlast hskip c hc
    have hcp : c ∈ processed := ((sortClips_perm processed).mem_iff).mp hc
    refine processScenesGo_no_fadeOut env svs.length narration svs 0 ?_ processed hp c hcp
    intro j sv2 hj hjn
    have hsv2 : sv2 = svl := by
      rw [List.getLast?_eq_getElem?] at hlast
      have hj2 : j = svs.length - 1 := by omega
      rw [hj2] at hj
      exact Option.some.inj (hj.symm.trans hlast)
    rw [hsv2]
    exact hskip

/-- Witness for `fades_from_input_index`: in the three-scene scenario
with scene 1's audio missing, the assembled clips carry no fade-in. -/
theorem fades_from_input_index_witness :
    assembleAnimation envC8 svsC8 narC10 = .ok outC10 ∧
    svsC8.head? = some svHeadC10 ∧
    skipsScene narC10 svHeadC10.sceneNumber = true ∧
    (∀ c ∈ outC10.clips, ∀ f ∈ c.plan.videoFades, f.kind ≠ FadeKind.fadeIn) :=
  ⟨rfl, by decide, by decide,
   (fades_from_input_index envC8 svsC8 narC10 outC10 rfl).1 svHeadC10
     (by decide) (by decide)⟩

/-- C9 counterexample: the orchestrator the controller actually requires
(`generateAnimation` in animationService.js) terminates a fully
successful job with the durable deliverable in place but performs no
removal at all — in particular it never reclaims the transient working
area (`cleanupTempFiles` is defined but not invoked on success), so the
claim that success copies the deliverable and then reclaims the working
area is false at this input. -/
theorem success_without_reclaim :
    (generateAnimationRun orchEnvAllOk).result = .ok permanentVideoPath ∧
    (∀ op ∈ (generateAnimationRun orchEnvAllOk).ops, op.isRemoval = false) ∧
    FsOp.rmRecursive workingDir ∉ (generateAnimationRun orchEnvAllOk).ops := by
  refine ⟨by decide, by decide, by decide⟩

/-- C9 (amended): on terminal success the base orchestrator
(animationService.js) copies the deliverable to durable storage outside
the working area and performs no removal — it does not reclaim the
transient working area; the mood variant (src/unnamed/part_001)
additionally invokes `cleanupTempFiles` right after the durable copy and
the database save, which reclaims the whole working directory in one
recursive removal whose failure is caught (the run still succeeds) and
which only ever touches the working directory, never the durable
deliverable; on failure after a transient deliverable was produced, the
transient file is best-effort removed exactly when it is not inside the
durable output directory. -/
theorem storage_lifecycle_amended (env : OrchEnv) (fp : String)
    (hpipe : env.pipeline = .ok fp)
    (hfp : strStartsWith fp durableOutputDir = false) :
    (env.copyOk = true → env.dbOk = true →
      ((generateAnimationRun env).result = .ok permanentVideoPath ∧
       (∀ op ∈ (generateAnimationRun env).ops, op.isRemoval = false) ∧
       (generateAnimationMoodRun env).result = .ok permanentVideoPath ∧
       (generateAnimationMoodRun env).ops =
         [.mkdirRecursive durableOutputDir, .copyFile fp permanentVideoPath] ++
           cleanupTempFiles env ∧
       (∀ op ∈ cleanupTempFiles env,
         op = FsOp.rmRecursive workingDir ∨ op = FsOp.mkdirRecursive workingDir) ∧
       (env.workingDirExists = true →
         FsOp.rmRecursive workingDir ∈ (generateAnimationMoodRun env).ops) ∧
       (∀ op ∈ (generateAnimationMoodRun env).ops,
         op ≠ FsOp.unlink permanentVideoPath ∧
         op ≠ FsOp.rmRecursive permanentVideoPath))) ∧
    ((env.copyOk = false ∨ env.dbOk = false) →
      ((generateAnimationRun env).result.isOk = false ∧
       FsOp.unlink fp ∈ (generateAnimationRun env).ops)) ∧
    (∀ p : String, FsOp.unlink p ∈ failCleanupOps p ↔
      strStartsWith p durableOutputDir = false) ∧
    strStartsWith permanentVideoPath workingDir = false := by
  have hcleanupShape : ∀ op ∈ cleanupTempFiles env,
      op = FsOp.rmRecursive workingDir ∨ op = FsOp.mkdirRecursive workingDir := by
    intro op hop
    unfold cleanupTempFiles at hop
    split_ifs at hop <;> simp_all
  refine ⟨?_, ?_, ?_, by decide⟩
  · intro hcopy hdb
    have hrunbase : generateAnimationRun env =
        { result := .ok permanentVideoPath
          ops := [.mkdirRecursive durableOutputDir,
                  .copyFile fp permanentVideoPath] } := by
      simp [generateAnimationRun, hpipe, hcopy, hdb]
    have hrunmood : generateAnimationMoodRun env =
        { result := .ok permanentVideoPath
          ops := [.mkdirRecursive durableOutputDir,
                  .copyFile fp permanentVideoPath] ++ cleanupTempFiles env } := by
      simp [generateAnimationMoodRun, hpipe, hcopy, hdb]
    refine ⟨by rw [hrunbase], ?_, by rw [hrunmood], by rw [hrunmood],
      hcleanupShape, ?_, ?_⟩
    · rw [hrunbase]
      intro op hop
      rcases List.mem_cons.mp hop with rfl | hop2
      · rfl
      · rcases List.mem_cons.mp hop2 with rfl | hop3
        · rfl
        · simp at hop3
    · intro hex
      rw [hrunmood]
      refine List.mem_append.mpr (Or.inr ?_)
      unfold cleanupTempFiles
      rw [if_pos hex]
      cases hrm : env.rmOk <;> simp
    · rw [hrunmood]
      intro op hop
      rcases List.mem_append.mp hop with hop1 | hop2
      · rcases List.mem_cons.mp hop1 with rfl | hop1b
        · exact ⟨by simp, by simp⟩
        · rcases List.mem_cons.mp hop1b with rfl | hop1c
          · exact ⟨by simp, by simp⟩
          · simp at hop1c
      · rcases hcleanupShape op hop2 with rfl | rfl
        · exact ⟨by simp, by simp [workingDir, permanentVideoPath]⟩
        · exact ⟨by simp, by simp⟩
  · intro hfail
    have hclean : failCleanupOps fp = [.unlink fp] := by
      unfold failCleanupOps
      rw [hfp]
      rfl
    by_cases hcopy : env.copyOk = false
    · have hrun : generateAnimationRun env =
          { result := .error ("Animation generation failed: " ++ copyFailMsg)
            ops := [.mkdirRecursive durableOutputDir,
                    .copyFile fp permanentVideoPath] ++ failCleanupOps fp } := by
        simp [generateAnimationRun, hpipe, hcopy]
      rw [hrun, hclean]
      exact ⟨rfl, by simp⟩
    · have hcopy2 : env.copyOk = true := by
        cases h2 : env.copyOk
        · exact absurd h2 hcopy
        · rfl
      have hdb : env.dbOk = false := by
        rcases hfail with h3 | h3
        · exact absurd h3 hcopy
        · exact h3
      have hrun : generateAnimationRun env =
          { result := .error ("Animation generation failed: " ++ dbFailMsg)
            ops := [.mkdirRecursive durableOutputDir,
                    .copyFile fp permanentVideoPath] ++ failCleanupOps fp } := by
        simp [generateAnimationRun, hpipe, hcopy2, hdb]
      rw [hrun, hclean]
      exact ⟨rfl, by simp⟩
  · intro p
    unfold failCleanupOps
    cases hb : strStartsWith p durableOutputDir
    · simp
    · simp

/-- Witness for `storage_lifecycle_amended` at the fully successful
environment whose transient deliverable lives in the working area. -/
theorem storage_lifecycle_amended_witness :
    orchEnvAllOk.pipeline = .ok "src/temp/animation_final.mp4" ∧
    strStartsWith "src/temp/animation_final.mp4" durableOutputDir = false ∧
    ((orchEnvAllOk.copyOk = true → orchEnvAllOk.dbOk = true →
      ((generateAnimationRun orchEnvAllOk).result = .ok permanentVideoPath ∧
       (∀ op ∈ (generateAnimationRun orchEnvAllOk).ops, op.isRemoval = false) ∧
       (generateAnimationMoodRun orchEnvAllOk).result = .ok permanentVideoPath ∧
       (generateAnimationMoodRun orchEnvAllOk).ops =
         [.mkdirRecursive durableOutputDir,
          .copyFile "src/temp/animation_final.mp4" permanentVideoPath] ++
           cleanupTempFiles orchEnvAllOk ∧
       (∀ op ∈ cleanupTempFiles orchEnvAllOk,
         op = FsOp.rmRecursive workingDir ∨ op = FsOp.mkdirRecursive workingDir) ∧
       (orchEnvAllOk.workingDirExists = true →
         FsOp.rmRecursive workingDir ∈ (generateAnimationMoodRun orchEnvAllOk).ops) ∧
       (∀ op ∈ (generateAnimationMoodRun orchEnvAllOk).ops,
         op ≠ FsOp.unlink permanentVideoPath ∧
         op ≠ FsOp.rmRecursive permanentVideoPath))) ∧
    ((orchEnvAllOk.copyOk = false ∨ orchEnvAllOk.dbOk = false) →
      ((generateAnimationRun orchEnvAllOk).result.isOk = false ∧
       FsOp.unlink "src/temp/animation_final.mp4" ∈ (generateAnimationRun orchEnvAllOk).ops)) ∧
    (∀ p : String, FsOp.unlink p ∈ failCleanupOps p ↔
      strStartsWith p durableOutputDir = false) ∧
    strStartsWith permanentVideoPath workingDir = false) :=
  ⟨rfl, by decide,
   storage_lifecycle_amended orchEnvAllOk "src/temp/animation_final.mp4" rfl (by decide)⟩

end GenAIVideo
